import Mathlib

/-!
Shallow embedding of the screenshot server (`src/server.js` and the
variant in `src/unnamed/part_000`).  The in-page evaluation scripts are
modelled as pure functions over an abstract page state; the Express
request handlers are modelled as functions from the request parameters
and an environment (capturing the outcomes of the asynchronous browser
operations) to a trace of observable events (page creation, page close,
response sent).
-/

namespace ScreenshotSrv

/-- JS `a || b` on strings: the empty string is the only falsy string. -/
def jsOrS (a b : String) : String := if a = "" then b else a

/-- JS `a || b` on non-negative numbers: `0` is falsy. -/
def jsOrN (a b : Nat) : Nat := if a = 0 then b else a

/-- JS `getAttribute` result coerced for a `||` chain: `null` behaves like `""`. -/
def optS (o : Option String) : String := o.getD ""

/-- Char-list prefix test (used to model JS `String.prototype.includes`). -/
def chPre : List Char → List Char → Bool
  | [], _ => true
  | _ :: _, [] => false
  | a :: as, b :: bs => a == b && chPre as bs

/-- Does `pat` occur inside `s` (as char lists)? -/
def chSub (pat : List Char) : List Char → Bool
  | [] => chPre pat []
  | b :: bs => chPre pat (b :: bs) || chSub pat bs

/-- JS `s.includes(pat)` for the non-empty literal patterns used in the source. -/
def strIncludes (s pat : String) : Bool := chSub pat.toList s.toList

/-- JS `attr?.split(' ')[0]`: first space-separated token, `""` when absent. -/
def firstTok (o : Option String) : String :=
  match o with
  | none => ""
  | some s => (s.splitOn " ").headD ""

/-- An `<img>` element as observed by the in-page scripts: its live `src`,
`alt`, the lazy-loading attributes, and its four size readings
(`naturalWidth`/`naturalHeight`, layout `width`/`height`) plus the parsed
`width`/`height` attributes (`none` models `parseInt` returning `NaN`). -/
structure Img where
  src : String
  alt : String
  dataSrc : Option String
  dataLazySrc : Option String
  dataOriginal : Option String
  dataSrcset : Option String
  srcset : Option String
  naturalWidth : Nat
  naturalHeight : Nat
  width : Nat
  height : Nat
  attrWidth : Option Nat
  attrHeight : Option Nat
deriving DecidableEq

/-- An image with only a `src`, `alt` and natural/layout sizes (the common case). -/
def mkImg (src alt : String) (nw nh w h : Nat) : Img :=
  ⟨src, alt, none, none, none, none, none, nw, nh, w, h, none, none⟩

/-- `img.naturalWidth || img.width || 0` (src/server.js line 426). -/
def resolvedW (img : Img) : Nat := jsOrN img.naturalWidth (jsOrN img.width 0)

/-- `img.naturalHeight || img.height || 0` (src/server.js line 427). -/
def resolvedH (img : Img) : Nat := jsOrN img.naturalHeight (jsOrN img.height 0)

/-- The content-image filter of `/screenshot/images`
(`images.filter(...)`, src/server.js lines 425-430): keep only images whose
resolved size is at least 200 x 100. -/
def selectContentImages (imgs : List Img) : List Img :=
  imgs.filter fun img => decide (200 ≤ resolvedW img) && decide (100 ≤ resolvedH img)

/-- Lazy-src fixing pass of the part_000 images path (lines 263-273):
when `src` is empty or a data URI, substitute the first truthy lazy attribute. -/
def fixLazyP0 (img : Img) : Img :=
  if img.src = "" ∨ strIncludes img.src "data:image" then
    let p := jsOrS (optS img.dataSrc)
      (jsOrS (optS img.dataLazySrc)
        (jsOrS (optS img.dataOriginal) (firstTok img.dataSrcset)))
    if p = "" then img else { img with src := p }
  else img

/-- `img.naturalWidth || img.width || parseInt(attr width) || 0` (part_000 line 279). -/
def wP0 (img : Img) : Nat :=
  jsOrN img.naturalWidth (jsOrN img.width (jsOrN (img.attrWidth.getD 0) 0))

/-- `img.naturalHeight || img.height || parseInt(attr height) || 0` (part_000 line 280). -/
def hP0 (img : Img) : Nat :=
  jsOrN img.naturalHeight (jsOrN img.height (jsOrN (img.attrHeight.getD 0) 0))

/-- `img.src || img.getAttribute('data-src') || ''` (part_000 line 276). -/
def srcP0 (img : Img) : String := jsOrS img.src (jsOrS (optS img.dataSrc) "")

/-- The content-image filter of the part_000 images path (lines 275-282):
discard images with an empty or data-URI source, then apply the 200 x 100
minimum-size rule with attribute fallback. -/
def contentImagesP0 (imgs : List Img) : List Img :=
  imgs.filter fun img =>
    !(srcP0 img == "") && !(strIncludes (srcP0 img) "data:image") &&
      (decide (200 ≤ wP0 img) && decide (100 ≤ hP0 img))

/-- A candidate container element as observed by the locator scripts:
its `innerText` length (resp. summed paragraph text length for the
variant locator), its `<p>` count, and the images it contains. -/
structure Element where
  textLength : Nat
  paragraphs : Nat
  imgs : List Img
deriving DecidableEq

/-- One iteration of the `bestMatch` loop (src/server.js lines 190-202):
`score = textLength + paragraphs * 100`; the candidate replaces the current
best only if its score strictly exceeds the running maximum and its text
length clears the 500-character floor. -/
def bmStep (s : Option Element × Nat) (el : Element) : Option Element × Nat :=
  if s.2 < el.textLength + el.paragraphs * 100 ∧ 500 < el.textLength then
    (some el, el.textLength + el.paragraphs * 100)
  else s

/-- The `bestMatch` density heuristic (src/server.js lines 185-204):
fold over the `div, section, article` candidates in document order,
starting from no match and maximum score 0. -/
def bestMatch (els : List Element) : Option Element := (els.foldl bmStep (none, 0)).1

/-- First pass over `article, [role="main"], main` (src/server.js lines
176-182): take the first candidate whose `innerText` exceeds 500 chars. -/
def findFirstMain (mains : List Element) : Option Element :=
  mains.find? fun el => decide (500 < el.textLength)

/-- The full locator of src/server.js: the main-selector pass, falling back
to the `bestMatch` density loop (lines 171-205). -/
def locateArticle (mains alls : List Element) : Option Element :=
  match findFirstMain mains with
  | some el => some el
  | none => bestMatch alls

/-- One iteration of the `maxTextLength` loop of the second server.js
variant (lines 664-676): here `textLength` is the summed paragraph text
length and the floor is 200 characters. -/
def mtStep (s : Option Element × Nat) (el : Element) : Option Element × Nat :=
  if s.2 < el.textLength ∧ 200 < el.textLength then (some el, el.textLength) else s

/-- The `maxTextLength` density heuristic (server.js lines 664-676). -/
def locateByParagraphText (els : List Element) : Option Element :=
  (els.foldl mtStep (none, 0)).1

/-- The in-page scroll loop of `scrollAndLoad` (src/server.js lines 66-80):
each 100ms tick re-reads `scrollHeight` (modelled by `h` applied to the tick
number), scrolls by 100, adds 100 to the accumulated total and stops once the
total has reached the height just read.  `fuel` bounds the modelled ticks;
the result is the final `(totalHeight, scrollHeight)` pair, `none` meaning
the loop was still running after `fuel` ticks. -/
def scrollSteps (h : Nat → Nat) : Nat → Nat → Nat → Option (Nat × Nat)
  | 0, _, _ => none
  | fuel + 1, t, total =>
    if h t ≤ total + 100 then some (total + 100, h t)
    else scrollSteps h fuel (t + 1) (total + 100)

/-- The result of `Readability.parse()` as used by the handlers. -/
structure Article where
  title : String
  byline : Option String
deriving DecidableEq

/-- Lazy-src resolution of the part_000 screenshot path (lines 143-156):
the ternary chooses a clean live `src`, otherwise falls through the lazy
attributes; the chosen source is written back only if truthy and different. -/
def possibleSrcScr (img : Img) : String :=
  if img.src ≠ "" ∧ ¬ strIncludes img.src "data:" = true ∧
      ¬ strIncludes img.src "placeholder" = true then img.src
  else
    jsOrS (optS img.dataSrc)
      (jsOrS (optS img.dataLazySrc)
        (jsOrS (optS img.dataOriginal)
          (jsOrS (firstTok img.dataSrcset) (firstTok img.srcset))))

/-- The effective `img.src` after the part_000 screenshot path's lazy fix
(lines 152-156). -/
def resolveLazyScr (img : Img) : String :=
  if possibleSrcScr img ≠ "" ∧ possibleSrcScr img ≠ img.src then possibleSrcScr img
  else img.src

/-- The effective `img.src` after the part_000 images path's lazy fix
(lines 263-273). -/
def resolveLazyImages (img : Img) : String := (fixLazyP0 img).src

/-- The page state feeding the in-page evaluation scripts: whether the
Readability script loaded, what `reader.parse()` returned, and the two
candidate lists scanned by the locator (main-selector pass and generic
containers). -/
structure PageEnv where
  readabilityLoaded : Bool
  article : Option Article
  mains : List Element
  alls : List Element
deriving DecidableEq

/-- The reader-mode evaluation of `/screenshot` (src/server.js lines
114-299): false when Readability is absent, parsing yields no article, or
the locator finds no element; true once the DOM rewrite runs to completion. -/
def readerModeApplied (p : PageEnv) : Bool :=
  if ¬ p.readabilityLoaded = true then false
  else
    match p.article with
    | none => false
    | some _ =>
      match locateArticle p.mains p.alls with
      | none => false
      | some _ => true

/-- An image descriptor as built by `contentImages.map` (src/server.js
lines 434-440). -/
structure ImageDescriptor where
  index : Nat
  src : String
  alt : String
  width : Nat
  height : Nat
deriving DecidableEq

/-- `contentImages.map((img, idx) => ...)` (src/server.js lines 432-441):
descriptors carry their zero-based post-filter position as `index`. -/
def descriptorsOf (imgs : List Img) : List ImageDescriptor :=
  (selectContentImages imgs).enum.map fun p =>
    { index := p.1, src := p.2.src, alt := p.2.alt,
      width := jsOrN p.2.naturalWidth p.2.width,
      height := jsOrN p.2.naturalHeight p.2.height }

/-- The image-info evaluation of `/screenshot/images` (src/server.js lines
354-447): success requires Readability, a parsed article and a located
element; the descriptors come from the located element's images. -/
def articleImageInfo (p : PageEnv) : Bool × List ImageDescriptor :=
  if ¬ p.readabilityLoaded = true then (false, [])
  else
    match p.article with
    | none => (false, [])
    | some _ =>
      match locateArticle p.mains p.alls with
      | none => (false, [])
      | some el => (true, descriptorsOf el.imgs)

/-- Outcomes of the per-image capture loop: whether `page.$` finds the
element for descriptor `i`, whether its `screenshot()` succeeds, and the
bytes it produces. -/
structure CaptureEnv where
  found : Nat → Bool
  shotOk : Nat → Bool
  bytes : Nat → List Nat

/-- The capture loop of `/screenshot/images` (src/server.js lines 455-474):
descriptor `i` contributes a buffer exactly when its element is found and
its screenshot does not throw; per-image failures are skipped. -/
def captureBuffers (ds : List ImageDescriptor) (c : CaptureEnv) :
    List (List Nat × ImageDescriptor) :=
  (ds.enum.filter fun p => c.found p.1 && c.shotOk p.1).map fun p => (c.bytes p.1, p.2)

/-- A record of the JSON response of `/screenshot/images`. -/
structure ImgRecord where
  index : Nat
  filename : String
  data : List Nat
  src : String
  alt : String
  width : Nat
  height : Nat
deriving DecidableEq

/-- `imageBuffers.map((item, index) => ...)` (src/server.js lines 483-492):
the response records are re-indexed by their position in the buffer list. -/
def imagesBase64 (bufs : List (List Nat × ImageDescriptor)) : List ImgRecord :=
  bufs.enum.map fun p =>
    { index := p.1, filename := "image-" ++ toString p.1 ++ ".png",
      data := p.2.1, src := p.2.2.src, alt := p.2.2.alt,
      width := p.2.2.width, height := p.2.2.height }

/-- An HTTP response of either endpoint. -/
inductive Resp where
  | png (bytes : List Nat)
  | imagesJson (total : Nat) (images : List ImgRecord)
  | err (status : Nat) (msg : String)
deriving DecidableEq

/-- Observable events of one request: page-context creation, page-context
close, and sending the response. -/
inductive Ev where
  | pageCreated
  | pageClosed
  | sent (r : Resp)
deriving DecidableEq

/-- JS falsiness of `req.query.url`: absent, or the empty string. -/
def urlMissing : Option String → Bool
  | none => true
  | some s => s == ""

/-- Environment of one request: whether `browser.newPage()` throws, whether
any awaited browser operation after page creation throws (navigation,
scrolling, script injection, evaluation, final screenshot), the abstract
page state, the capture outcomes, and the full-page screenshot bytes. -/
structure ReqEnv where
  newPageFails : Bool
  throwsMid : Bool
  page : PageEnv
  cap : CaptureEnv
  shotBytes : List Nat

/-- `GET /screenshot` of src/server.js (lines 90-328) as an event trace:
missing url is rejected before any page exists; a thrown browser operation
is caught, the page closed and a 500 sent; otherwise reader mode is
attempted and — applied or not — a full-page screenshot is sent. -/
def screenshotTrace (url : Option String) (e : ReqEnv) : List Ev :=
  if urlMissing url then [Ev.sent (Resp.err 400 "URL parameter is required")]
  else if e.newPageFails then [Ev.sent (Resp.err 500 "Failed to capture screenshot")]
  else if e.throwsMid then
    [Ev.pageCreated, Ev.pageClosed, Ev.sent (Resp.err 500 "Failed to capture screenshot")]
  else if readerModeApplied e.page then
    [Ev.pageCreated, Ev.pageClosed, Ev.sent (Resp.png e.shotBytes)]
  else
    [Ev.pageCreated, Ev.pageClosed, Ev.sent (Resp.png e.shotBytes)]

/-- `GET /screenshot/images` of src/server.js (lines 330-510) as an event
trace, with the two 404 branches (no qualifying descriptors; empty capture
buffer list) and the success branch. -/
def imagesTrace (url : Option String) (e : ReqEnv) : List Ev :=
  if urlMissing url then [Ev.sent (Resp.err 400 "URL parameter is required")]
  else if e.newPageFails then
    [Ev.sent (Resp.err 500 "Failed to capture image screenshots")]
  else if e.throwsMid then
    [Ev.pageCreated, Ev.pageClosed,
      Ev.sent (Resp.err 500 "Failed to capture image screenshots")]
  else if (articleImageInfo e.page).1 = false ∨ (articleImageInfo e.page).2 = [] then
    [Ev.pageCreated, Ev.pageClosed,
      Ev.sent (Resp.err 404 "No images found in the article content")]
  else if captureBuffers (articleImageInfo e.page).2 e.cap = [] then
    [Ev.pageCreated, Ev.pageClosed,
      Ev.sent (Resp.err 404 "Failed to capture image screenshots")]
  else
    [Ev.pageCreated, Ev.pageClosed,
      Ev.sent (Resp.imagesJson (captureBuffers (articleImageInfo e.page).2 e.cap).length
        (imagesBase64 (captureBuffers (articleImageInfo e.page).2 e.cap)))]

/-- `GET /screenshot` of src/unnamed/part_000 (lines 87-211) as an event
trace: this variant returns a 500 error when Readability fails to parse
(lines 175-178) instead of degrading to a full-page screenshot. -/
def screenshotTraceP0 (url : Option String) (e : ReqEnv) : List Ev :=
  if urlMissing url then [Ev.sent (Resp.err 400 "URL parameter is required")]
  else if e.newPageFails then [Ev.sent (Resp.err 500 "Failed to capture screenshot")]
  else if e.throwsMid then
    [Ev.pageCreated, Ev.pageClosed, Ev.sent (Resp.err 500 "Failed to capture screenshot")]
  else if e.page.readabilityLoaded && e.page.article.isSome then
    [Ev.pageCreated, Ev.pageClosed, Ev.sent (Resp.png e.shotBytes)]
  else
    [Ev.pageCreated, Ev.pageClosed,
      Ev.sent (Resp.err 500 "Failed to parse article with Readability")]

/-- Some `Ev.sent` event is preceded by an `Ev.pageClosed` event. -/
def SentAfterClose (tr : List Ev) : Prop :=
  ∃ p m r q, tr = p ++ Ev.pageClosed :: (m ++ Ev.sent r :: q)

/-- A lazy-loaded image: empty `src`, populated `data-src`. -/
def lazyImg : Img :=
  ⟨"", "", some "https://cdn.example.com/real.png", none, none, none, none,
    0, 0, 0, 0, none, none⟩

/-- Capture outcomes where every element is found and shot successfully. -/
def allOkCap : CaptureEnv := ⟨fun _ => true, fun _ => true, fun _ => [7]⟩

/-- Capture outcomes where `page.$` never finds the element. -/
def noneFoundCap : CaptureEnv := ⟨fun _ => false, fun _ => true, fun _ => []⟩

/-- Scenario images: two 300 x 300 content images around a 50 x 50 icon. -/
def scenarioImgs : List Img :=
  [mkImg "https://site.example/a.png" "a" 300 300 300 300,
   mkImg "https://site.example/icon.png" "i" 50 50 50 50,
   mkImg "https://site.example/b.png" "b" 300 300 300 300]

/-- Page state for the three-image scenario: a parsed article and one main
candidate with 600 chars of text holding the three images. -/
def scenarioPage : PageEnv :=
  ⟨true, some ⟨"T", none⟩, [⟨600, 3, scenarioImgs⟩], []⟩

/-- A fully successful request over the scenario page. -/
def scenarioEnv : ReqEnv := ⟨false, false, scenarioPage, allOkCap, [9]⟩

/-- Page state on which extraction fails: Readability parses nothing. -/
def missPage : PageEnv := ⟨true, none, [], []⟩

/-- A request whose navigation succeeds but whose extraction fails. -/
def missEnv : ReqEnv := ⟨false, false, missPage, allOkCap, [9]⟩

/-- A request that finds the scenario article but loses every capture. -/
def lostCapturesEnv : ReqEnv := ⟨false, false, scenarioPage, noneFoundCap, [9]⟩

/-- Claim C2: the content-image filter returns at most as many images as it
is given, and every surviving image has resolved width at least 200 and
resolved height at least 100 (both for the `server.js` filter and the
part_000 variant with its attribute fallback). -/
theorem selectContentImages_size_bounds (imgs : List Img) :
    (selectContentImages imgs).length ≤ imgs.length ∧
    ((selectContentImages imgs).all fun img =>
      decide (200 ≤ resolvedW img) && decide (100 ≤ resolvedH img)) = true ∧
    (contentImagesP0 imgs).length ≤ imgs.length ∧
    ((contentImagesP0 imgs).all fun img =>
      decide (200 ≤ wP0 img) && decide (100 ≤ hP0 img)) = true := by
  refine ⟨List.length_filter_le _ _, ?_, List.length_filter_le _ _, ?_⟩
  · refine List.all_eq_true.mpr fun x hx => ?_
    rw [selectContentImages] at hx
    exact (List.mem_filter.mp hx).2
  · refine List.all_eq_true.mpr fun x hx => ?_
    rw [contentImagesP0] at hx
    have h := (List.mem_filter.mp hx).2
    simp only [Bool.and_eq_true] at h
    simp [h.2]

/-- Claim C9: the content-image filter is idempotent — re-running it on its
own output is a no-op (both variants). -/
theorem content_filter_idempotent (imgs : List Img) :
    selectContentImages (selectContentImages imgs) = selectContentImages imgs ∧
    contentImagesP0 (contentImagesP0 imgs) = contentImagesP0 imgs := by
  constructor
  · show List.filter _ (List.filter _ imgs) = List.filter _ imgs
    exact List.filter_eq_self.mpr fun a ha => (List.mem_filter.mp ha).2
  · show List.filter _ (List.filter _ imgs) = List.filter _ imgs
    exact List.filter_eq_self.mpr fun a ha => (List.mem_filter.mp ha).2

/-- Candidates whose text length misses the 500-char floor never change the
state of the `bestMatch` fold. -/
theorem foldl_bmStep_skip (l : List Element) (hl : ∀ x ∈ l, x.textLength ≤ 500)
    (s : Option Element × Nat) : l.foldl bmStep s = s := by
  induction l generalizing s with
  | nil => rfl
  | cons a as ih =>
    have ha : a.textLength ≤ 500 := hl a (List.mem_cons_self a as)
    have hna : ¬ (s.2 < a.textLength + a.paragraphs * 100 ∧ 500 < a.textLength) :=
      fun hcon => absurd hcon.2 (by omega)
    rw [List.foldl_cons, show bmStep s a = s from by simp only [bmStep, if_neg hna]]
    exact ih (fun x hx => hl x (List.mem_cons_of_mem a hx)) s

/-- Candidates whose summed paragraph text misses the 200-char floor never
change the state of the `maxTextLength` fold. -/
theorem foldl_mtStep_skip (l : List Element) (hl : ∀ x ∈ l, x.textLength ≤ 200)
    (s : Option Element × Nat) : l.foldl mtStep s = s := by
  induction l generalizing s with
  | nil => rfl
  | cons a as ih =>
    have ha : a.textLength ≤ 200 := hl a (List.mem_cons_self a as)
    have hna : ¬ (s.2 < a.textLength ∧ 200 < a.textLength) :=
      fun hcon => absurd hcon.2 (by omega)
    rw [List.foldl_cons, show mtStep s a = s from by simp only [mtStep, if_neg hna]]
    exact ih (fun x hx => hl x (List.mem_cons_of_mem a hx)) s

/-- Claim C3: when exactly one candidate clears the scoring floor (500 chars
for the `bestMatch` loop, 200 chars for the `maxTextLength` loop) and every
other candidate is below it, the density heuristic selects that candidate. -/
theorem unique_candidate_above_floor_selected :
    (∀ (pre post : List Element) (c : Element),
      (∀ x ∈ pre, x.textLength ≤ 500) → (∀ x ∈ post, x.textLength ≤ 500) →
      500 < c.textLength → bestMatch (pre ++ c :: post) = some c) ∧
    (∀ (pre post : List Element) (c : Element),
      (∀ x ∈ pre, x.textLength ≤ 200) → (∀ x ∈ post, x.textLength ≤ 200) →
      200 < c.textLength → locateByParagraphText (pre ++ c :: post) = some c) := by
  constructor
  · intro pre post c hpre hpost hc
    unfold bestMatch
    rw [List.foldl_append, foldl_bmStep_skip pre hpre, List.foldl_cons]
    have hpos : ((none : Option Element), 0).2 < c.textLength + c.paragraphs * 100 := by
      show 0 < c.textLength + c.paragraphs * 100
      omega
    rw [show bmStep ((none : Option Element), 0) c
          = (some c, c.textLength + c.paragraphs * 100) from by
        simp only [bmStep, if_pos (And.intro hpos hc)]]
    rw [foldl_bmStep_skip post hpost]
  · intro pre post c hpre hpost hc
    unfold locateByParagraphText
    rw [List.foldl_append, foldl_mtStep_skip pre hpre, List.foldl_cons]
    have hpos : ((none : Option Element), 0).2 < c.textLength := by
      show 0 < c.textLength
      omega
    rw [show mtStep ((none : Option Element), 0) c = (some c, c.textLength) from by
        simp only [mtStep, if_pos (And.intro hpos hc)]]
    rw [foldl_mtStep_skip post hpost]

/-- Witness for C3: the spec scenario — a 600-char article after a 50-char
sidebar — is selected by both density loops. -/
theorem unique_candidate_above_floor_selected_witness :
    bestMatch [⟨50, 1, []⟩, ⟨600, 3, []⟩] = some ⟨600, 3, []⟩ ∧
    locateByParagraphText [⟨50, 1, []⟩, ⟨600, 3, []⟩] = some ⟨600, 3, []⟩ :=
  ⟨unique_candidate_above_floor_selected.1 [⟨50, 1, []⟩] [] ⟨600, 3, []⟩
      (by decide) (by decide) (by decide),
   unique_candidate_above_floor_selected.2 [⟨50, 1, []⟩] [] ⟨600, 3, []⟩
      (by decide) (by decide) (by decide)⟩

/-- Claim C6: an `<img>` with empty `src` and a non-empty `data-src` resolves
to the `data-src` value, in both lazy-resolution passes of part_000. -/
theorem lazy_src_resolution (img : Img) (s : String)
    (h1 : img.src = "") (h2 : img.dataSrc = some s) (h3 : s ≠ "") :
    resolveLazyScr img = s ∧ resolveLazyImages img = s := by
  have hps : possibleSrcScr img = s := by
    unfold possibleSrcScr
    rw [if_neg (fun hcon => absurd h1 hcon.1)]
    rw [h2]
    show jsOrS s _ = s
    simp [jsOrS, h3]
  constructor
  · unfold resolveLazyScr
    rw [hps, if_pos (And.intro h3 (by rw [h1]; exact h3))]
  · unfold resolveLazyImages fixLazyP0
    rw [if_pos (Or.inl h1), h2]
    show (if jsOrS s _ = "" then img else _).src = s
    simp [jsOrS, optS, h3]

/-- Witness for C6 at a concrete lazy-loaded image. -/
theorem lazy_src_resolution_witness :
    resolveLazyScr lazyImg = "https://cdn.example.com/real.png" ∧
    resolveLazyImages lazyImg = "https://cdn.example.com/real.png" :=
  lazy_src_resolution lazyImg "https://cdn.example.com/real.png" rfl rfl (by decide)

/-- With enough fuel, the scroll loop stops with the accumulated total at
least the scrollHeight read in its final tick. -/
theorem scrollSteps_completes (h : Nat → Nat) (B : Nat) (hB : ∀ t, h t ≤ B) :
    ∀ fuel total t, 1 ≤ fuel → B ≤ 100 * fuel + total →
      ∃ r : Nat × Nat, scrollSteps h fuel t total = some r ∧ r.2 ≤ r.1 := by
  intro fuel
  induction fuel with
  | zero => intro total t h1 _; exact absurd h1 (by omega)
  | succ f ih =>
    intro total t _ hle
    by_cases hc : h t ≤ total + 100
    · exact ⟨(total + 100, h t), by simp only [scrollSteps, if_pos hc], hc⟩
    · have hf : 1 ≤ f := by have := hB t; omega
      obtain ⟨r, hr, hr2⟩ := ih (total + 100) (t + 1) hf (by omega)
      exact ⟨r, by simp only [scrollSteps, if_neg hc]; exact hr, hr2⟩

/-- Claim C7: if every `scrollHeight` reading is bounded by `B`, the scroll
loop of `scrollAndLoad` terminates within `B / 100 + 1` ticks, and at
termination the accumulated distance is at least the last height read. -/
theorem scroll_loop_terminates (h : Nat → Nat) (B : Nat) (hB : ∀ t, h t ≤ B) :
    ∃ r : Nat × Nat, scrollSteps h (B / 100 + 1) 0 0 = some r ∧ r.2 ≤ r.1 :=
  scrollSteps_completes h B hB (B / 100 + 1) 0 0 (by omega) (by omega)

/-- Witness for C7 on a page of constant height 950. -/
theorem scroll_loop_terminates_witness :
    ∃ r : Nat × Nat, scrollSteps (fun _ => 950) (950 / 100 + 1) 0 0 = some r ∧ r.2 ≤ r.1 :=
  scroll_loop_terminates (fun _ => 950) 950 (fun _ => Nat.le_refl 950)

/-- Claim C4: a request with a missing url parameter gets the 400
"parameter required" response from every handler, and no page context is
ever created. -/
theorem missing_url_invalid_request (e : ReqEnv) :
    screenshotTrace none e = [Ev.sent (Resp.err 400 "URL parameter is required")] ∧
    imagesTrace none e = [Ev.sent (Resp.err 400 "URL parameter is required")] ∧
    screenshotTraceP0 none e = [Ev.sent (Resp.err 400 "URL parameter is required")] ∧
    Ev.pageCreated ∉ screenshotTrace none e ∧
    Ev.pageCreated ∉ imagesTrace none e ∧
    Ev.pageCreated ∉ screenshotTraceP0 none e := by
  refine ⟨rfl, rfl, rfl, ?_, ?_, ?_⟩ <;>
    simp [screenshotTrace, imagesTrace, screenshotTraceP0, urlMissing]

/-- Mapping an enum-built list back to its first components gives the
positions `0, 1, ...`. -/
theorem map_of_enum_map_eq_range {α β : Type} (f : Nat × α → β) (g : β → Nat)
    (l : List α) (hfg : ∀ p, g (f p) = p.1) :
    (l.enum.map f).map g = List.range l.length := by
  rw [List.map_map]
  have hc : (g ∘ f) = Prod.fst := funext fun p => hfg p
  rw [hc, List.enum_map_fst]

/-- Claim C5: every response record's `index` equals its position in the
response array, descriptor indices equal their post-filter position, and in
the three-image scenario exactly the two large images come back, indices 0
and 1 in DOM order. -/
theorem image_indices_positional (bufs : List (List Nat × ImageDescriptor))
    (imgs : List Img) :
    (imagesBase64 bufs).map ImgRecord.index = List.range (imagesBase64 bufs).length ∧
    (descriptorsOf imgs).map ImageDescriptor.index
      = List.range (descriptorsOf imgs).length ∧
    imagesTrace (some "https://site.example/post") scenarioEnv =
      [Ev.pageCreated, Ev.pageClosed,
        Ev.sent (Resp.imagesJson 2
          [⟨0, "image-0.png", [7], "https://site.example/a.png", "a", 300, 300⟩,
           ⟨1, "image-1.png", [7], "https://site.example/b.png", "b", 300, 300⟩])] := by
  refine ⟨?_, ?_, by decide⟩
  · have hlen : (imagesBase64 bufs).length = bufs.length := by
      simp [imagesBase64]
    rw [hlen, imagesBase64]
    exact map_of_enum_map_eq_range _ _ _ fun p => rfl
  · have hlen : (descriptorsOf imgs).length = (selectContentImages imgs).length := by
      simp [descriptorsOf]
    rw [hlen, descriptorsOf]
    exact map_of_enum_map_eq_range _ _ _ fun p => rfl

/-- A trace of the form created-closed-sent satisfies `SentAfterClose`. -/
theorem sent_after_close_cons (r : Resp) :
    SentAfterClose [Ev.pageCreated, Ev.pageClosed, Ev.sent r] :=
  ⟨[Ev.pageCreated], [], r, [], rfl⟩

/-- Every `/screenshot` trace is a bare rejection or created-closed-sent. -/
theorem screenshotTrace_shape (url : Option String) (e : ReqEnv) :
    (∃ r, screenshotTrace url e = [Ev.sent r]) ∨
    (∃ r, screenshotTrace url e = [Ev.pageCreated, Ev.pageClosed, Ev.sent r]) := by
  unfold screenshotTrace
  split_ifs <;> first
    | exact Or.inl ⟨_, rfl⟩
    | exact Or.inr ⟨_, rfl⟩

/-- Every `/screenshot/images` trace is a bare rejection or
created-closed-sent. -/
theorem imagesTrace_shape (url : Option String) (e : ReqEnv) :
    (∃ r, imagesTrace url e = [Ev.sent r]) ∨
    (∃ r, imagesTrace url e = [Ev.pageCreated, Ev.pageClosed, Ev.sent r]) := by
  unfold imagesTrace
  split_ifs <;> first
    | exact Or.inl ⟨_, rfl⟩
    | exact Or.inr ⟨_, rfl⟩

/-- Every part_000 `/screenshot` trace is a bare rejection or
created-closed-sent. -/
theorem screenshotTraceP0_shape (url : Option String) (e : ReqEnv) :
    (∃ r, screenshotTraceP0 url e = [Ev.sent r]) ∨
    (∃ r, screenshotTraceP0 url e = [Ev.pageCreated, Ev.pageClosed, Ev.sent r]) := by
  unfold screenshotTraceP0
  split_ifs <;> first
    | exact Or.inl ⟨_, rfl⟩
    | exact Or.inr ⟨_, rfl⟩

/-- Claim C8: on every request that creates a page context, the context is
closed before the response is sent — on success, extraction miss and
failure paths alike, in all three modelled handlers. -/
theorem page_closed_before_send (url : Option String) (e : ReqEnv) :
    (Ev.pageCreated ∈ screenshotTrace url e → SentAfterClose (screenshotTrace url e)) ∧
    (Ev.pageCreated ∈ imagesTrace url e → SentAfterClose (imagesTrace url e)) ∧
    (Ev.pageCreated ∈ screenshotTraceP0 url e →
      SentAfterClose (screenshotTraceP0 url e)) := by
  refine ⟨fun hmem => ?_, fun hmem => ?_, fun hmem => ?_⟩
  · rcases screenshotTrace_shape url e with ⟨r, hr⟩ | ⟨r, hr⟩
    · rw [hr] at hmem; simp at hmem
    · rw [hr]; exact sent_after_close_cons r
  · rcases imagesTrace_shape url e with ⟨r, hr⟩ | ⟨r, hr⟩
    · rw [hr] at hmem; simp at hmem
    · rw [hr]; exact sent_after_close_cons r
  · rcases screenshotTraceP0_shape url e with ⟨r, hr⟩ | ⟨r, hr⟩
    · rw [hr] at hmem; simp at hmem
    · rw [hr]; exact sent_after_close_cons r

/-- Witness for C8 on a concrete successful request. -/
theorem page_closed_before_send_witness :
    SentAfterClose (screenshotTrace (some "https://site.example/post") scenarioEnv) ∧
    SentAfterClose (imagesTrace (some "https://site.example/post") scenarioEnv) ∧
    SentAfterClose (screenshotTraceP0 (some "https://site.example/post") scenarioEnv) :=
  ⟨(page_closed_before_send (some "https://site.example/post") scenarioEnv).1
      (by decide),
   (page_closed_before_send (some "https://site.example/post") scenarioEnv).2.1
      (by decide),
   (page_closed_before_send (some "https://site.example/post") scenarioEnv).2.2
      (by decide)⟩

/-- Claim C10: when qualifying descriptors exist but every per-image capture
fails, `/screenshot/images` answers with the 404 error, not with a success
payload carrying zero images. -/
theorem all_captures_failed_404 (url : Option String) (e : ReqEnv)
    (hu : urlMissing url = false) (h1 : e.newPageFails = false)
    (h2 : e.throwsMid = false) (h3 : (articleImageInfo e.page).1 = true)
    (h4 : (articleImageInfo e.page).2 ≠ [])
    (h5 : captureBuffers (articleImageInfo e.page).2 e.cap = []) :
    imagesTrace url e =
      [Ev.pageCreated, Ev.pageClosed,
        Ev.sent (Resp.err 404 "Failed to capture image screenshots")] := by
  simp [imagesTrace, hu, h1, h2, h3, h4, h5]

/-- Witness for C10: the scenario article whose captures all fail. -/
theorem all_captures_failed_404_witness :
    imagesTrace (some "https://site.example/post") lostCapturesEnv =
      [Ev.pageCreated, Ev.pageClosed,
        Ev.sent (Resp.err 404 "Failed to capture image screenshots")] :=
  all_captures_failed_404 (some "https://site.example/post") lostCapturesEnv
    (by decide) rfl rfl (by decide) (by decide) (by decide)

/-- C1 counterexample: in the part_000 variant an extraction miss yields a
500 error response, not a PNG, refuting "never an error response". -/
theorem p0_screenshot_errors_on_extraction_miss :
    missEnv.page.article = none ∧
    screenshotTraceP0 (some "https://site.example/post") missEnv =
      [Ev.pageCreated, Ev.pageClosed,
        Ev.sent (Resp.err 500 "Failed to parse article with Readability")] :=
  ⟨rfl, by decide⟩

/-- Claim C1 (amended): when extraction fails on a request whose browser
operations all succeed, the server.js `/screenshot` still sends the
full-page PNG and `/screenshot/images` sends the 404 not-found result,
while the part_000 `/screenshot` variant sends a 500 error instead. -/
theorem extraction_miss_behavior (url : Option String) (e : ReqEnv)
    (hu : urlMissing url = false) (h1 : e.newPageFails = false)
    (h2 : e.throwsMid = false) :
    (readerModeApplied e.page = false →
      screenshotTrace url e =
        [Ev.pageCreated, Ev.pageClosed, Ev.sent (Resp.png e.shotBytes)]) ∧
    (locateArticle e.page.mains e.page.alls = none →
      imagesTrace url e =
        [Ev.pageCreated, Ev.pageClosed,
          Ev.sent (Resp.err 404 "No images found in the article content")]) ∧
    (e.page.article = none →
      screenshotTraceP0 url e =
        [Ev.pageCreated, Ev.pageClosed,
          Ev.sent (Resp.err 500 "Failed to parse article with Readability")]) := by
  refine ⟨fun h => ?_, fun h => ?_, fun h => ?_⟩
  · simp [screenshotTrace, hu, h1, h2, h]
  · have hinfo : (articleImageInfo e.page).1 = false := by
      unfold articleImageInfo
      by_cases hr : ¬ e.page.readabilityLoaded = true
      · rw [if_pos hr]
      · rw [if_neg hr]
        cases ha : e.page.article with
        | none => rfl
        | some a => rw [h]
    simp [imagesTrace, hu, h1, h2, hinfo]
  · simp [screenshotTraceP0, hu, h1, h2, h]

/-- Witness for the amended C1 at a concrete extraction miss. -/
theorem extraction_miss_behavior_witness :
    screenshotTrace (some "https://site.example/post") missEnv =
      [Ev.pageCreated, Ev.pageClosed, Ev.sent (Resp.png [9])] ∧
    imagesTrace (some "https://site.example/post") missEnv =
      [Ev.pageCreated, Ev.pageClosed,
        Ev.sent (Resp.err 404 "No images found in the article content")] ∧
    screenshotTraceP0 (some "https://site.example/post") missEnv =
      [Ev.pageCreated, Ev.pageClosed,
        Ev.sent (Resp.err 500 "Failed to parse article with Readability")] :=
  ⟨(extraction_miss_behavior (some "https://site.example/post") missEnv
      (by decide) rfl rfl).1 (by decide),
   (extraction_miss_behavior (some "https://site.example/post") missEnv
      (by decide) rfl rfl).2.1 rfl,
   (extraction_miss_behavior (some "https://site.example/post") missEnv
      (by decide) rfl rfl).2.2 rfl⟩

end ScreenshotSrv
